import Mathlib

/-!
A verification development for the ledger server in `src/cli/helpers/server.rs`
(crate `aleo`). The definitions below are a shallow embedding of that file:

* `Transaction` stands in for the opaque `snarkvm` transaction payload;
* `LedgerRequest` mirrors the `LedgerRequest<N>` enum (one variant,
  `TransactionBroadcast`);
* `Channel`/`channelSend` model the bounded `tokio::mpsc` channel created by
  `mpsc::channel(64)` in `Server::start`;
* `start_handler_loop` models the body of the consumer loop spawned in
  `Server::start_handler`;
* `SysState`/`Step`/`Reachable` give an interleaving small-step semantics of
  the whole server (producers, the single consumer, sender handles);
* `bodyPipeline` models the warp filter chain
  `content_length_limit(limit).and(body::json())`;
* `LedgerModel` abstracts the external `Ledger` collaborator at its interface
  (read operations plus `add_to_memory_pool`), as the spec treats it;
* the `Reply`-valued functions embed the HTTP handlers in the second
  `impl<N: Network> Server<N>` block.
-/

/-- Opaque transaction payload; its internal structure belongs to the external
ledger library, so only identity matters here. -/
structure Transaction where
  id : Nat
deriving DecidableEq, Repr

/-- The `LedgerRequest<N>` enum from the source: exactly one variant,
`TransactionBroadcast(Transaction<N>)`. -/
inductive LedgerRequest where
  | TransactionBroadcast (t : Transaction)
deriving DecidableEq, Repr

/-- Capacity of the mutation queue: `mpsc::channel(64)` in `Server::start`. -/
def queueCapacity : Nat := 64

/-- State of the bounded mpsc channel as seen by a sender: the buffered
requests and whether the receiver half is still alive. -/
structure Channel where
  buf : List LedgerRequest
  receiverAlive : Bool
deriving DecidableEq, Repr

/-- Outcome of `sender.send(request).await` on the tokio bounded channel:
the send completes (appending to the buffer), suspends because the buffer is
at capacity (the item is retained by the suspended sender, not dropped), or
fails because the receiver was dropped. -/
inductive SendOutcome where
  | sent (c : Channel)
  | suspended
  | closedErr
deriving DecidableEq, Repr

/-- Semantics of `sender.send(request).await`: an error exactly when the
receiver is gone; otherwise append when below capacity, suspend when full. -/
def channelSend (c : Channel) (r : LedgerRequest) : SendOutcome :=
  if c.receiverAlive = false then .closedErr
  else if c.buf.length < queueCapacity then .sent ⟨c.buf ++ [r], c.receiverAlive⟩
  else .suspended

/-- Reply of the `transaction_broadcast` handler: the literal `"OK"` body
together with the updated channel, a suspension (the send is still awaiting a
free slot), or a `ServerError::Request` rejection. -/
inductive BroadcastReply where
  | ok (body : String) (c : Channel)
  | pending
  | requestError
deriving DecidableEq, Repr

/-- Embedding of `Server::transaction_broadcast`: send the wrapped transaction
on the ledger channel; `Ok(()) => Ok("OK")`, `Err(e) => Err(reject)`. -/
def transaction_broadcast (c : Channel) (t : Transaction) : BroadcastReply :=
  match channelSend c (.TransactionBroadcast t) with
  | .sent c' => .ok "OK" c'
  | .suspended => .pending
  | .closedErr => .requestError

/-- Embedding of the consumer loop in `Server::start_handler`, run over the
sequence of requests received from the channel. `accept` abstracts
`ledger.add_to_memory_pool`: `true` means `Ok(())`. The result is the pair of
(transactions added to the memory pool, transactions whose error was logged);
a failure only logs and the loop continues. -/
def start_handler_loop (accept : Transaction → Bool) :
    List LedgerRequest → List Transaction × List Transaction
  | [] => ([], [])
  | .TransactionBroadcast t :: rs =>
    let rest := start_handler_loop accept rs
    if accept t then (t :: rest.1, rest.2) else (rest.1, t :: rest.2)

/-- The primitive ledger-facing operations a task can perform, as they appear
in the source: take the read lock on the ledger, call the mutation entry point
`add_to_memory_pool`, or send on the mutation queue. -/
inductive LedgerOp where
  | readLock
  | addToMemoryPool
  | sendToQueue
deriving DecidableEq, Repr

/-- The routes wired up in `Server::start`. -/
inductive Route where
  | latestHeight
  | latestHash
  | latestBlock
  | getBlock
  | statePath
  | recordsAll
  | recordsSpent
  | recordsUnspent
  | transactionBroadcast
deriving DecidableEq, Repr

/-- The ledger-facing operations performed by each route's handler, read off
the handler bodies in the source: every GET handler only takes the read lock,
and the broadcast handler only sends on the queue. -/
def handlerOps : Route → List LedgerOp
  | .latestHeight => [.readLock]
  | .latestHash => [.readLock]
  | .latestBlock => [.readLock]
  | .getBlock => [.readLock]
  | .statePath => [.readLock]
  | .recordsAll => [.readLock]
  | .recordsSpent => [.readLock]
  | .recordsUnspent => [.readLock]
  | .transactionBroadcast => [.sendToQueue]

/-- The `content_length_limit` argument attached to each route in
`Server::start`; `none` for the bodyless routes. -/
def routeBodyLimit : Route → Option Nat
  | .latestHeight => none
  | .latestHash => none
  | .latestBlock => none
  | .getBlock => none
  | .statePath => some 128
  | .recordsAll => some 256
  | .recordsSpent => some 256
  | .recordsUnspent => some 128
  | .transactionBroadcast => some (10 * 1024 * 1024)

/-- Result of running a request body through the warp filter chain
`content_length_limit(limit).and(body::json())`. -/
inductive BodyOutcome (α : Type) where
  | tooLarge
  | badRequest
  | accepted (a : α)
deriving DecidableEq, Repr

/-- The warp body filter chain: `content_length_limit` rejects a body longer
than `limit` before the json filter runs; otherwise the json filter applies
`parse` to the entire body (never to a truncation of it). -/
def bodyPipeline {α : Type} (limit : Nat) (parse : List Nat → Option α)
    (body : List Nat) : BodyOutcome α :=
  if limit < body.length then .tooLarge
  else
    match parse body with
    | none => .badRequest
    | some a => .accepted a

/-- Global state of the running server, for the interleaving semantics:
the mutation-queue buffer, the history of completed enqueues, the history of
requests the consumer has received and applied, the ledger memory pool, the
locally logged apply failures, the number of `ledger_sender` clones held by
in-flight broadcast handlers, whether the `Server` object (which owns the
original `ledger_sender`) is still alive, and whether the consumer loop has
terminated on a closed channel. -/
structure SysState where
  queue : List LedgerRequest
  enqueued : List LedgerRequest
  applied : List LedgerRequest
  pool : List Transaction
  errors : List Transaction
  handlerSenders : Nat
  serverAlive : Bool
  consumerClosed : Bool
deriving DecidableEq, Repr

/-- Number of live sender halves of the mutation queue: the handler-held
clones plus the one owned by the `Server` struct while it is alive. -/
def senderCount (s : SysState) : Nat :=
  s.handlerSenders + (if s.serverAlive then 1 else 0)

/-- The state right after `Server::start` returns: empty queue, no history,
the `Server` holds the only sender, the consumer loop is live. -/
def initState : SysState :=
  { queue := [], enqueued := [], applied := [], pool := [], errors := [],
    handlerSenders := 0, serverAlive := true, consumerClosed := false }

/-- One atomic step of the running system, read off the source:
`enqueue` is a broadcast handler's `send` completing (only possible below
capacity, with a live sender, on an open channel); `consume` is one iteration
of the consumer loop in `start_handler` (receive the queue head, call
`add_to_memory_pool`, log on failure); `cloneSender`/`dropHandlerSender`
track `ledger_sender.clone()` handles of in-flight handlers; `dropServer`
drops the `Server` object and its owned sender; `close` is the consumer's
`recv()` returning `None`, possible only when the buffer is empty and every
sender is gone. -/
inductive Step (accept : Transaction → Bool) : SysState → SysState → Prop
  | enqueue {s : SysState} (t : Transaction)
      (hroom : s.queue.length < queueCapacity)
      (hsend : 0 < senderCount s)
      (hopen : s.consumerClosed = false) :
      Step accept s
        { s with queue := s.queue ++ [.TransactionBroadcast t],
                 enqueued := s.enqueued ++ [.TransactionBroadcast t] }
  | consume {s : SysState} (t : Transaction) (rest : List LedgerRequest)
      (hq : s.queue = .TransactionBroadcast t :: rest)
      (hopen : s.consumerClosed = false) :
      Step accept s
        { s with queue := rest,
                 applied := s.applied ++ [.TransactionBroadcast t],
                 pool := if accept t then s.pool ++ [t] else s.pool,
                 errors := if accept t then s.errors else s.errors ++ [t] }
  | cloneSender {s : SysState}
      (hsend : 0 < senderCount s) :
      Step accept s { s with handlerSenders := s.handlerSenders + 1 }
  | dropHandlerSender {s : SysState}
      (h : 0 < s.handlerSenders) :
      Step accept s { s with handlerSenders := s.handlerSenders - 1 }
  | dropServer {s : SysState}
      (h : s.serverAlive = true) :
      Step accept s { s with serverAlive := false }
  | close {s : SysState}
      (hq : s.queue = [])
      (hsend : senderCount s = 0)
      (hopen : s.consumerClosed = false) :
      Step accept s { s with consumerClosed := true }

/-- States reachable from `initState` by interleaved steps. -/
inductive Reachable (accept : Transaction → Bool) : SysState → Prop
  | init : Reachable accept initState
  | step {s s' : SysState} (h : Reachable accept s) (hs : Step accept s s') :
      Reachable accept s'

/-- The filter passed to `Ledger::find_records`, mirroring
`RecordsFilter::{All, Spent, Unspent}`; graph keys are abstracted to `Nat`. -/
inductive RecordsFilter where
  | all
  | spent (graphKey : Nat)
  | unspent (graphKey : Nat)
deriving DecidableEq, Repr

/-- The external `Ledger` collaborator at its interface boundary, as the
handlers use it (all reads go through `ledger.ledger.read()`): commitments,
hashes, paths, view keys and records are abstracted to `Nat`, blocks to their
serialized form as `Nat`, and fallible lookups return `Except` with the error
message that `or_reject` would surface. -/
structure LedgerModel where
  latest_height : Nat
  latest_hash : Nat
  latest_block : Except String Nat
  get_block : Nat → Except String Nat
  to_state_path : Nat → Except String Nat
  find_records : Nat → RecordsFilter → List (Nat × Nat)

/-- A handler's HTTP-level result: a JSON payload, an ordered
commitment-to-record mapping, a `ServerError::Request` rejection, or a panic
of the handler task. -/
inductive Reply where
  | okJson (v : Nat)
  | okRecords (rs : List (Nat × Nat))
  | rejected (msg : String)
  | panicked
deriving DecidableEq, Repr

/-- One insertion into an `IndexMap`: an existing key keeps its position and
gets the new value; a new key is appended at the end. -/
def insertIM (m : List (Nat × Nat)) (kv : Nat × Nat) : List (Nat × Nat) :=
  if kv.1 ∈ m.map Prod.fst then
    m.map (fun p => if p.1 = kv.1 then (p.1, kv.2) else p)
  else m ++ [kv]

/-- `collect::<IndexMap<_, _>>()` over the `find_records` iterator: fold the
scan output into an insertion-ordered map. -/
def collectIM (l : List (Nat × Nat)) : List (Nat × Nat) :=
  l.foldl insertIM []

/-- Embedding of `Server::state_path` (after body parsing): return the state
path for the commitment, or reject with the lookup error via `or_reject`. -/
def state_path (L : LedgerModel) (commitment : Nat) : Reply :=
  match L.to_state_path commitment with
  | .ok p => .okJson p
  | .error e => .rejected e

/-- The full statePath route: the warp body pipeline with limit 128 feeding
the `state_path` handler; `parseC` abstracts deserializing the commitment
from the JSON body. -/
def statePathRoute (L : LedgerModel) (parseC : List Nat → Option Nat)
    (body : List Nat) : Reply :=
  match bodyPipeline 128 parseC body with
  | .tooLarge => .rejected "payload too large"
  | .badRequest => .rejected "body deserialize error"
  | .accepted c => state_path L c

/-- Embedding of `Server::records_all` (after body parsing): scan with
`RecordsFilter::All` and collect into an `IndexMap`. -/
def records_all (L : LedgerModel) (view_key : Nat) : Reply :=
  .okRecords (collectIM (L.find_records view_key .all))

/-- Lookup of a key in the deserialized JSON object
(`IndexMap<String, String>`). -/
def lookupStr (m : List (String × String)) (k : String) : Option String :=
  (m.find? (fun p => p.1 == k)).map Prod.snd

/-- Embedding of `Server::records_spent`. The body is the deserialized
`IndexMap<String, String>`; `body["view_key"]` uses the panicking `Index`
operator of `IndexMap`, so a missing key is a panic, while a present key that
fails to parse goes through `or_reject` into a request rejection. `parseVK`
and `parseGK` abstract `str::parse` for `ViewKey`/`GraphKey`. -/
def records_spent (L : LedgerModel) (parseVK parseGK : String → Option Nat)
    (body : List (String × String)) : Reply :=
  match lookupStr body "view_key" with
  | none => .panicked
  | some vs =>
    match parseVK vs with
    | none => .rejected "view key parse error"
    | some vk =>
      match lookupStr body "graph_key" with
      | none => .panicked
      | some gs =>
        match parseGK gs with
        | none => .rejected "graph key parse error"
        | some gk => .okRecords (collectIM (L.find_records vk (.spent gk)))

/-- Embedding of `Server::records_unspent`; identical to `records_spent`
except for the filter. -/
def records_unspent (L : LedgerModel) (parseVK parseGK : String → Option Nat)
    (body : List (String × String)) : Reply :=
  match lookupStr body "view_key" with
  | none => .panicked
  | some vs =>
    match parseVK vs with
    | none => .rejected "view key parse error"
    | some vk =>
      match lookupStr body "graph_key" with
      | none => .panicked
      | some gs =>
        match parseGK gs with
        | none => .rejected "graph key parse error"
        | some gk => .okRecords (collectIM (L.find_records vk (.unspent gk)))

/-- The generic record-query shape shared by the three record endpoints:
scan with `find_records`, collect into an `IndexMap`. -/
def findRecordsCollect (L : LedgerModel) (view_key : Nat) (f : RecordsFilter) :
    List (Nat × Nat) :=
  collectIM (L.find_records view_key f)

/-- The observable events of the startup protocol in `Server::start` and
`Server::start_handler`. -/
inductive StartEvent where
  | spawnConsumer
  | consumerReadySent
  | consumerReadyReceived
  | consumerRecvLoop
  | spawnWarp
  | warpReadySent
  | warpBind
  | warpServe
  | warpReadyReceived
  | startReturn
deriving DecidableEq, Repr

/-- Program order of the consumer task body spawned in `start_handler`: it
sends on `tx_handler_ready` first, and only then enters the `recv` loop. -/
def consumerTaskOrder : List StartEvent :=
  [.consumerReadySent, .consumerRecvLoop]

/-- Program order of the warp task body spawned in `start`: it sends on
`tx_warp_ready` first, and only then calls `warp::serve(routes).run(..)`,
which binds the socket and serves. -/
def warpTaskOrder : List StartEvent :=
  [.warpReadySent, .warpBind, .warpServe]

/-- The happens-before edges guaranteed by the source: program order inside
`start` (spawn the consumer, await its readiness, spawn the warp task, await
its readiness, return), program order inside each spawned task, the
spawn-to-first-statement edges, and the oneshot send-before-receive edges. -/
def hbEdges : List (StartEvent × StartEvent) :=
  [ (.spawnConsumer, .consumerReadySent),
    (.consumerReadySent, .consumerRecvLoop),
    (.consumerReadySent, .consumerReadyReceived),
    (.consumerReadyReceived, .spawnWarp),
    (.spawnWarp, .warpReadySent),
    (.warpReadySent, .warpBind),
    (.warpBind, .warpServe),
    (.warpReadySent, .warpReadyReceived),
    (.warpReadyReceived, .startReturn) ]

/-- Happens-before: the transitive closure of the edges above. -/
def hb (a b : StartEvent) : Prop :=
  Relation.TransGen (fun x y => (x, y) ∈ hbEdges) a b

/-- Some concrete payloads and a sample `accept` used by concrete
instantiations below. -/
def acceptAll : Transaction → Bool := fun _ => true

/-- Sample accept function rejecting odd transaction ids. -/
def acceptEven : Transaction → Bool := fun t => t.id % 2 == 0

/-- Sample broadcast request. -/
def reqA : LedgerRequest := .TransactionBroadcast ⟨1⟩

/-- Second sample broadcast request. -/
def reqB : LedgerRequest := .TransactionBroadcast ⟨2⟩

/-- The consumer loop distributes over concatenation of the received
request sequence: processing is compositional, one item at a time. -/
theorem start_handler_loop_append (accept : Transaction → Bool)
    (xs ys : List LedgerRequest) :
    start_handler_loop accept (xs ++ ys)
      = ((start_handler_loop accept xs).1 ++ (start_handler_loop accept ys).1,
         (start_handler_loop accept xs).2 ++ (start_handler_loop accept ys).2) := by
  induction xs with
  | nil => simp [start_handler_loop]
  | cons r xs ih =>
    cases r with
    | TransactionBroadcast t =>
      by_cases h : accept t <;> simp [start_handler_loop, h, ih]

/-- Claim C3: when applying a dequeued mutation fails, the consumer only logs
the failure and keeps going: with `accept y = false`, processing
`xs ++ [TransactionBroadcast y] ++ ys` still applies every accepted
transaction of `ys` to the pool (in order, right after those of `xs`), and
the failing transaction appears in the local error log instead of anywhere
else; nothing is propagated to the original HTTP caller, whose reply was
already fixed at enqueue time. -/
theorem C3_consumer_survives_failure (accept : Transaction → Bool)
    (xs ys : List LedgerRequest) (y : Transaction)
    (hy : accept y = false) :
    (start_handler_loop accept (xs ++ .TransactionBroadcast y :: ys)).1
      = (start_handler_loop accept xs).1 ++ (start_handler_loop accept ys).1
    ∧ y ∈ (start_handler_loop accept (xs ++ .TransactionBroadcast y :: ys)).2 := by
  have hmid : start_handler_loop accept (.TransactionBroadcast y :: ys)
      = ((start_handler_loop accept ys).1,
         y :: (start_handler_loop accept ys).2) := by
    simp [start_handler_loop, hy]
  rw [start_handler_loop_append accept xs (.TransactionBroadcast y :: ys), hmid]
  simp

/-- Claim C3 witness: a concrete run with a failing middle transaction. -/
theorem C3_witness :
    (start_handler_loop acceptEven
        ([.TransactionBroadcast ⟨2⟩] ++ .TransactionBroadcast ⟨3⟩ ::
          [.TransactionBroadcast ⟨4⟩])).1
      = (start_handler_loop acceptEven [.TransactionBroadcast ⟨2⟩]).1
        ++ (start_handler_loop acceptEven [.TransactionBroadcast ⟨4⟩]).1
    ∧ (⟨3⟩ : Transaction) ∈
        (start_handler_loop acceptEven
          ([.TransactionBroadcast ⟨2⟩] ++ .TransactionBroadcast ⟨3⟩ ::
            [.TransactionBroadcast ⟨4⟩])).2 :=
  C3_consumer_survives_failure acceptEven [.TransactionBroadcast ⟨2⟩]
    [.TransactionBroadcast ⟨4⟩] ⟨3⟩ (by decide)

/-- Claim C4: the mutation queue has fixed capacity 64; a send against a full
queue with a live receiver suspends (neither errors nor drops the item); a
send with room appends the request and the handler replies with the literal
string `"OK"`; and the handler returns a request failure exactly when the
receiver side is gone, never merely because the queue is full. -/
theorem C4_queue_backpressure :
    queueCapacity = 64
    ∧ (∀ (c : Channel) (t : Transaction), c.receiverAlive = true →
        c.buf.length = queueCapacity → transaction_broadcast c t = .pending)
    ∧ (∀ (c : Channel) (t : Transaction), c.receiverAlive = true →
        c.buf.length < queueCapacity →
        transaction_broadcast c t
          = .ok "OK" ⟨c.buf ++ [.TransactionBroadcast t], true⟩)
    ∧ (∀ (c : Channel) (t : Transaction),
        transaction_broadcast c t = .requestError ↔ c.receiverAlive = false) := by
  refine ⟨rfl, ?_, ?_, ?_⟩
  · intro c t halive hfull
    simp [transaction_broadcast, channelSend, halive, hfull]
  · intro c t halive hroom
    simp [transaction_broadcast, channelSend, halive, hroom]
  · intro c t
    rcases c with ⟨buf, ra⟩
    cases ra with
    | false => simp [transaction_broadcast, channelSend]
    | true =>
      by_cases hroom : buf.length < queueCapacity <;>
        simp [transaction_broadcast, channelSend, hroom]

/-- Claim C4 witness: a full channel with 64 buffered requests suspends the
sender; an empty open channel accepts and replies `"OK"`; a closed channel is
the only request-error case. -/
theorem C4_witness :
    transaction_broadcast ⟨List.replicate 64 reqA, true⟩ ⟨1⟩ = .pending
    ∧ transaction_broadcast ⟨[], true⟩ ⟨1⟩
        = .ok "OK" ⟨[.TransactionBroadcast ⟨1⟩], true⟩
    ∧ (transaction_broadcast ⟨[], false⟩ ⟨1⟩ = .requestError
        ↔ (⟨[], false⟩ : Channel).receiverAlive = false) :=
  ⟨C4_queue_backpressure.2.1 ⟨List.replicate 64 reqA, true⟩ ⟨1⟩ rfl (by decide),
   C4_queue_backpressure.2.2.1 ⟨[], true⟩ ⟨1⟩ rfl (by decide),
   C4_queue_backpressure.2.2.2 ⟨[], false⟩ ⟨1⟩⟩

/-- Claim C6: each body-carrying route is wired with its documented
`content_length_limit` (statePath 128, records/all 256, records/spent 256,
records/unspent 128, transaction/broadcast 10 MiB); an oversized body is
rejected before the JSON filter runs (the outcome does not depend on the
parser at all), and an accepted body is handed to the parser whole, never
truncated. -/
theorem C6_body_limits :
    (routeBodyLimit .statePath = some 128
      ∧ routeBodyLimit .recordsAll = some 256
      ∧ routeBodyLimit .recordsSpent = some 256
      ∧ routeBodyLimit .recordsUnspent = some 128
      ∧ routeBodyLimit .transactionBroadcast = some 10485760)
    ∧ (∀ (α : Type) (limit : Nat) (p q : List Nat → Option α)
         (body : List Nat), limit < body.length →
         bodyPipeline limit p body = .tooLarge
         ∧ bodyPipeline limit p body = bodyPipeline limit q body)
    ∧ (∀ (α : Type) (limit : Nat) (p : List Nat → Option α)
         (body : List Nat), body.length ≤ limit →
         bodyPipeline limit p body
           = match p body with
             | none => .badRequest
             | some a => .accepted a) := by
  refine ⟨⟨rfl, rfl, rfl, rfl, rfl⟩, ?_, ?_⟩
  · intro α limit p q body hover
    constructor <;> simp [bodyPipeline, hover]
  · intro α limit p body hunder
    simp [bodyPipeline, Nat.not_lt.mpr hunder]

/-- Claim C6 witness: a 129-byte body on a 128-byte route is rejected
independently of the parser, and a small body reaches the parser whole. -/
theorem C6_witness :
    (bodyPipeline 128 (fun _ => some 0) (List.replicate 129 0)
        = (.tooLarge : BodyOutcome Nat)
      ∧ bodyPipeline 128 (fun _ => some 0) (List.replicate 129 0)
          = bodyPipeline 128 (fun _ => some 1) (List.replicate 129 0))
    ∧ bodyPipeline 128 (fun _ => some 2) (List.replicate 5 0)
        = match (fun (_ : List Nat) => some 2) (List.replicate 5 0) with
          | none => BodyOutcome.badRequest
          | some a => BodyOutcome.accepted a :=
  ⟨C6_body_limits.2.1 Nat 128 (fun _ => some 0) (fun _ => some 1)
      (List.replicate 129 0) (by simp),
   C6_body_limits.2.2 Nat 128 (fun _ => some 2) (List.replicate 5 0) (by simp)⟩

/-- Claim C1: in every reachable state, the requests the consumer has applied,
followed by the requests still buffered, are exactly the completed enqueues in
completion order. Hence the applied sequence is an initial segment of the
enqueue sequence: each enqueued request is delivered at most once, in strict
FIFO order, under every interleaving of producers and the consumer. -/
theorem C1_fifo_at_most_once (accept : Transaction → Bool) (s : SysState)
    (h : Reachable accept s) :
    s.applied ++ s.queue = s.enqueued := by
  induction h with
  | init => rfl
  | step h hs ih =>
    cases hs with
    | enqueue t hroom hsend hopen =>
      simp only []
      rw [← List.append_assoc, ih]
    | consume t rest hq hopen =>
      simp only []
      rw [List.append_assoc, ← ih, hq]
      rfl
    | cloneSender hsend => exact ih
    | dropHandlerSender h => exact ih
    | dropServer h => exact ih
    | close hq hsend hopen => exact ih

/-- First intermediate demo state: one request enqueued. -/
def demoState1 : SysState :=
  { initState with queue := [reqA], enqueued := [reqA] }

/-- Second intermediate demo state: two requests enqueued. -/
def demoState2 : SysState :=
  { demoState1 with queue := [reqA, reqB], enqueued := [reqA, reqB] }

/-- Final demo state: the consumer has applied the first request. -/
def demoState3 : SysState :=
  { demoState2 with queue := [reqB], applied := [reqA], pool := [⟨1⟩] }

/-- The demo state is reachable: enqueue two requests, consume one. -/
theorem demoState3_reachable : Reachable acceptAll demoState3 :=
  Reachable.step
    (Reachable.step
      (Reachable.step Reachable.init
        (@Step.enqueue acceptAll initState ⟨1⟩ (by decide) (by decide) rfl))
      (@Step.enqueue acceptAll demoState1 ⟨2⟩ (by decide) (by decide) rfl))
    (@Step.consume acceptAll demoState2 ⟨1⟩ [reqB] rfl rfl)

/-- Claim C1 witness: the invariant evaluated on the concrete reachable demo
state. -/
theorem C1_witness : demoState3.applied ++ demoState3.queue = demoState3.enqueued :=
  C1_fifo_at_most_once acceptAll demoState3 demoState3_reachable

/-- Claim C2: no HTTP handler touches the mutation entry point — every route's
handler only takes the ledger read lock or sends on the mutation queue — and
in the step semantics the memory pool changes only when the single consumer
dequeues the queue head and applies it, so `add_to_memory_pool` is invoked
solely from consumer steps, which are serialized by construction. -/
theorem C2_mutation_exclusivity :
    (∀ r : Route, LedgerOp.addToMemoryPool ∉ handlerOps r)
    ∧ (∀ (accept : Transaction → Bool) (s s' : SysState),
        Step accept s s' → s'.pool ≠ s.pool →
        ∃ (t : Transaction) (rest : List LedgerRequest),
          s.queue = .TransactionBroadcast t :: rest
          ∧ accept t = true
          ∧ s'.pool = s.pool ++ [t]
          ∧ s'.applied = s.applied ++ [.TransactionBroadcast t]) := by
  constructor
  · intro r
    cases r <;> simp [handlerOps]
  · intro accept s s' hstep hpool
    cases hstep with
    | enqueue t hroom hsend hopen => exact absurd rfl hpool
    | consume t rest hq hopen =>
      by_cases h : accept t
      · exact ⟨t, rest, hq, h, by simp [h], by simp⟩
      · refine absurd ?_ hpool
        simp [h]
    | cloneSender hsend => exact absurd rfl hpool
    | dropHandlerSender h => exact absurd rfl hpool
    | dropServer h => exact absurd rfl hpool
    | close hq hsend hopen => exact absurd rfl hpool

/-- Claim C2 witness: the route table checked exhaustively, and the concrete
consume step from the demo trace exhibited as the only kind of pool change. -/
theorem C2_witness :
    (∀ r : Route, LedgerOp.addToMemoryPool ∉ handlerOps r)
    ∧ ∃ (t : Transaction) (rest : List LedgerRequest),
        demoState2.queue = .TransactionBroadcast t :: rest
        ∧ acceptAll t = true
        ∧ demoState3.pool = demoState2.pool ++ [t]
        ∧ demoState3.applied = demoState2.applied ++ [.TransactionBroadcast t] :=
  ⟨C2_mutation_exclusivity.1,
   C2_mutation_exclusivity.2 acceptAll demoState2 demoState3
     (@Step.consume acceptAll demoState2 ⟨1⟩ [reqB] rfl rfl)
     (by decide)⟩

/-- In every reachable state, a closed consumer implies the `Server` object
(and with it the original sender) is already gone: `close` demands a sender
count of zero, which a live server makes impossible. -/
theorem reachable_closed_implies_dead (accept : Transaction → Bool)
    (s : SysState) (h : Reachable accept s) :
    s.consumerClosed = true → s.serverAlive = false := by
  induction h with
  | init => intro hc; exact absurd hc (by decide)
  | step h hs ih =>
    cases hs with
    | enqueue t hroom hsend hopen => exact ih
    | consume t rest hq hopen => exact ih
    | cloneSender hsend => exact ih
    | dropHandlerSender h => exact ih
    | dropServer h => intro _; rfl
    | close hq hsend hopen =>
      intro _
      simp only [senderCount] at hsend
      split at hsend
      · exact absurd hsend (by omega)
      · exact Bool.eq_false_iff.mpr (by assumption)

/-- Claim C10: while the `Server` object is alive it retains its owned
`ledger_sender`, so the sender side of the mutation queue is never fully
dropped and the consumer's terminal `Closed` state is unreachable: every
reachable state with a live server has a live consumer loop. -/
theorem C10_no_close_while_alive (accept : Transaction → Bool) (s : SysState)
    (h : Reachable accept s) (halive : s.serverAlive = true) :
    s.consumerClosed = false := by
  cases hc : s.consumerClosed with
  | false => rfl
  | true =>
    have hdead := reachable_closed_implies_dead accept s h hc
    rw [halive] at hdead
    exact absurd hdead (by decide)

/-- Claim C5 fails as stated: in the source's program order the readiness
signals are sent at the top of each spawned task, not after the guarded work.
The consumer task sends on `tx_handler_ready` before entering its receive
loop, and the warp task sends on `tx_warp_ready` before `warp::serve(..).run`
binds the socket, so neither "fired after entering its receive loop" nor
"fired only after the listener has bound its socket" holds. -/
theorem C5_counterexample :
    ¬ (consumerTaskOrder.indexOf StartEvent.consumerRecvLoop
         < consumerTaskOrder.indexOf StartEvent.consumerReadySent
       ∨ warpTaskOrder.indexOf StartEvent.warpBind
         < warpTaskOrder.indexOf StartEvent.warpReadySent) := by decide

/-- Claim C5 (amended): `Server::start` returns only after both readiness
signals have been received — each signal happens-before `start`'s return —
but each signal is sent as the first action of its task: the consumer sends
its readiness before entering the receive loop, and the warp task sends its
readiness before binding the socket, so the handshake guarantees both tasks
have started, not that the listener is already serving. -/
theorem C5_amended_start_handshake :
    hb .consumerReadySent .startReturn
    ∧ hb .warpReadySent .startReturn
    ∧ consumerTaskOrder.indexOf StartEvent.consumerReadySent
        < consumerTaskOrder.indexOf StartEvent.consumerRecvLoop
    ∧ warpTaskOrder.indexOf StartEvent.warpReadySent
        < warpTaskOrder.indexOf StartEvent.warpBind := by
  refine ⟨?_, ?_, by decide, by decide⟩
  · have e1 : (StartEvent.consumerReadySent, StartEvent.consumerReadyReceived)
        ∈ hbEdges := by decide
    have e2 : (StartEvent.consumerReadyReceived, StartEvent.spawnWarp)
        ∈ hbEdges := by decide
    have e3 : (StartEvent.spawnWarp, StartEvent.warpReadySent) ∈ hbEdges := by
      decide
    have e4 : (StartEvent.warpReadySent, StartEvent.warpReadyReceived)
        ∈ hbEdges := by decide
    have e5 : (StartEvent.warpReadyReceived, StartEvent.startReturn)
        ∈ hbEdges := by decide
    exact Relation.TransGen.tail
      (Relation.TransGen.tail
        (Relation.TransGen.tail
          (Relation.TransGen.tail (Relation.TransGen.single e1) e2) e3) e4) e5
  · have e4 : (StartEvent.warpReadySent, StartEvent.warpReadyReceived)
        ∈ hbEdges := by decide
    have e5 : (StartEvent.warpReadyReceived, StartEvent.startReturn)
        ∈ hbEdges := by decide
    exact Relation.TransGen.tail (Relation.TransGen.single e4) e5

/-- A concrete ledger collaborator used for evaluations. -/
def demoLedger : LedgerModel :=
  { latest_height := 0, latest_hash := 0, latest_block := .ok 0,
    get_block := fun _ => .error "block not found",
    to_state_path := fun _ => .error "commitment missing",
    find_records := fun _ _ => [] }

/-- Claim C7 fails on the code: a syntactically valid JSON body in which
`view_key` (or, with `view_key` present and parsable, `graph_key`) is absent
makes `records_spent`/`records_unspent` panic, because `body["view_key"]`
uses `IndexMap`'s panicking `Index` operator; only a present-but-unparsable
key goes through `or_reject` into a client-visible request error. -/
theorem C7_missing_key_panics :
    records_spent demoLedger (fun _ => some 0) (fun _ => some 0) [] = .panicked
    ∧ records_unspent demoLedger (fun _ => some 0) (fun _ => some 0) []
        = .panicked
    ∧ records_spent demoLedger (fun _ => some 0) (fun _ => some 0)
        [("view_key", "v")] = .panicked
    ∧ records_spent demoLedger (fun _ => none) (fun _ => some 0)
        [("view_key", "v"), ("graph_key", "g")]
        = .rejected "view key parse error" :=
  ⟨rfl, rfl, rfl, rfl⟩

/-- Folding `insertIM` over a scan whose keys (together with the accumulator's
keys) are pairwise distinct just appends the scan to the accumulator: no entry
is moved, merged, or dropped. -/
theorem foldl_insertIM_nodup (l : List (Nat × Nat)) :
    ∀ acc : List (Nat × Nat), ((acc ++ l).map Prod.fst).Nodup →
      l.foldl insertIM acc = acc ++ l := by
  induction l with
  | nil => intro acc _; simp
  | cons t ts ih =>
    intro acc h
    have hmem : t.1 ∉ acc.map Prod.fst := by
      intro hmem
      rw [List.map_append] at h
      rcases List.nodup_append.mp h with ⟨-, -, hdisj⟩
      exact hdisj hmem (by simp)
    have hstep : insertIM acc t = acc ++ [t] := by
      simp [insertIM, hmem]
    have h' : (((acc ++ [t]) ++ ts).map Prod.fst).Nodup := by
      rw [List.append_assoc]
      simpa using h
    rw [List.foldl_cons, hstep, ih (acc ++ [t]) h', List.append_assoc]
    rfl

/-- On a scan with pairwise-distinct keys, collecting into an `IndexMap`
preserves the scan verbatim, entries and order alike. -/
theorem collectIM_eq_self (l : List (Nat × Nat))
    (h : (l.map Prod.fst).Nodup) : collectIM l = l := by
  simpa [collectIM] using foldl_insertIM_nodup l [] (by simpa using h)

/-- Claim C8: every record-query endpoint is a pure function of the ledger, so
two identical queries against an unchanged ledger return the same mapping;
and when the scanned commitments are pairwise distinct (they are unique
identifiers), the collected `IndexMap` is exactly the `find_records` scan, so
its iteration order equals the scan order. The `records/all` endpoint is the
`RecordsFilter.all` instance of this shape, and the spent/unspent endpoints
reach the same `findRecordsCollect` after key parsing. -/
theorem C8_record_query_order (L : LedgerModel) (view_key : Nat)
    (f : RecordsFilter)
    (h : ((L.find_records view_key f).map Prod.fst).Nodup) :
    findRecordsCollect L view_key f = findRecordsCollect L view_key f
    ∧ findRecordsCollect L view_key f = L.find_records view_key f
    ∧ records_all L view_key = .okRecords (findRecordsCollect L view_key .all) :=
  ⟨rfl, collectIM_eq_self _ h, rfl⟩

/-- A ledger whose scan yields two distinct records, for C8's witness. -/
def demoLedgerRecords : LedgerModel :=
  { demoLedger with find_records := fun _ _ => [(1, 10), (2, 20)] }

/-- Claim C8 witness: on a concrete two-record scan with distinct commitments
the collected mapping equals the scan. -/
theorem C8_witness :
    findRecordsCollect demoLedgerRecords 0 .all
      = demoLedgerRecords.find_records 0 .all :=
  (C8_record_query_order demoLedgerRecords 0 .all (by decide)).2.1

/-- Claim C9: the statePath route is wired with the 128-byte body limit; a
body within the limit that deserializes to a commitment is handed to the
`state_path` handler, which replies with the ledger's inclusion path when
`to_state_path` succeeds and with a request rejection carrying the lookup
error when it fails. -/
theorem C9_state_path_endpoint :
    routeBodyLimit .statePath = some 128
    ∧ (∀ (L : LedgerModel) (parseC : List Nat → Option Nat)
         (body : List Nat) (c : Nat),
         body.length ≤ 128 → parseC body = some c →
         statePathRoute L parseC body = state_path L c)
    ∧ (∀ (L : LedgerModel) (c p : Nat),
         L.to_state_path c = .ok p → state_path L c = .okJson p)
    ∧ (∀ (L : LedgerModel) (c : Nat) (e : String),
         L.to_state_path c = .error e → state_path L c = .rejected e) := by
  refine ⟨rfl, ?_, ?_, ?_⟩
  · intro L parseC body c hlen hp
    simp [statePathRoute, bodyPipeline, Nat.not_lt.mpr hlen, hp]
  · intro L c p hp
    simp [state_path, hp]
  · intro L c e he
    simp [state_path, he]

/-- A ledger with exactly one commitment in its state tree, for C9's
witness. -/
def demoLedgerPath : LedgerModel :=
  { demoLedger with
    to_state_path := fun c => if c = 5 then .ok 55 else .error "not found" }

/-- Claim C9 witness: a 3-byte body parsing to commitment 5 reaches the
handler; commitment 5 yields its path, commitment 6 a rejection. -/
theorem C9_witness :
    statePathRoute demoLedgerPath (fun _ => some 5) [1, 2, 3]
      = state_path demoLedgerPath 5
    ∧ state_path demoLedgerPath 5 = .okJson 55
    ∧ state_path demoLedgerPath 6 = .rejected "not found" :=
  ⟨C9_state_path_endpoint.2.1 demoLedgerPath (fun _ => some 5) [1, 2, 3] 5
      (by decide) rfl,
   C9_state_path_endpoint.2.2.1 demoLedgerPath 5 55 rfl,
   C9_state_path_endpoint.2.2.2 demoLedgerPath 6 "not found" rfl⟩

/-- Claim C10 witness: the invariant applied at the concrete reachable demo
state, in which the server is alive. -/
theorem C10_witness : demoState3.consumerClosed = false :=
  C10_no_close_while_alive acceptAll demoState3 demoState3_reachable rfl
